import Mathlib

/-!
Verification of the Garak Python SDK's natural-language specification.

The repository ships only its test suite under `src/tests`; the SDK modules
themselves (`garak_sdk.client`, `garak_sdk.auth`, `garak_sdk.resources.*`,
`garak_sdk.exceptions`) are not present.  Every definition below is therefore
modelled from the specification (spec.md), with the test suite pinning the
concrete behaviours (status codes, header names, key formats, error classes).

Conventions of the embedding: Python exceptions become values of an error
type returned through `Except`; the blocking wait loop becomes a fuelled
recursion over an abstract backend in which each status poll is instantaneous
and each sleep advances the wall clock by `poll_interval` seconds; durations
are rationals.
-/

namespace GarakSDK

/-- Modelled from the spec (§4.5 Error Taxonomy): the closed hierarchy of
SDK error kinds rooted at `GarakSDKError`.  `RateLimitError` carries
`retry_after`, `APIError` carries `status_code` and `error_code`,
`ScanTimeoutError` names the elapsed seconds. -/
inductive GarakError where
  | authenticationError
  | invalidConfigurationError
  | quotaExceededError
  | scanNotFoundError
  | scanValidationError
  | scanTimeoutError (elapsedSeconds : ℚ)
  | rateLimitError (retryAfter : Option Nat)
  | networkError
  | apiError (statusCode : Nat) (errorCode : Option String)
deriving DecidableEq, Repr

/-- Modelled from the spec and tests: the exceptions a caller can observe.
Members of the SDK taxonomy are wrapped in `sdk`; `fileExistsError` is
Python's built-in `FileExistsError`, which `test_download_report_overwrite_protection`
shows escaping from the report-download facade. -/
inductive PyException where
  | sdk (e : GarakError)
  | fileExistsError
deriving DecidableEq, Repr

/-- Whether an observed exception is an instance of the `GarakSDKError`
taxonomy (as tested by `test_all_exceptions_inherit_base`). -/
def PyException.isGarakSDKError : PyException → Bool
  | .sdk _ => true
  | .fileExistsError => false

/-- Lifecycle status of a scan (spec §3). -/
inductive ScanStatus where
  | pending
  | running
  | completed
  | failed
  | cancelled
deriving DecidableEq, Repr

/-- Terminal statuses: `{completed, failed, cancelled}` (spec §4.4). -/
def ScanStatus.isTerminal : ScanStatus → Bool
  | .completed => true
  | .failed => true
  | .cancelled => true
  | .pending => false
  | .running => false

/-- Modelled from the spec (§3 ScanMetadata, reduced to the fields the
verified claims mention): the full scan record returned by the Scan
facade's get operation. -/
structure ScanRecord where
  scanId : String
  status : ScanStatus
deriving DecidableEq, Repr

/-- Modelled from the spec (§4.2, §4.3): the decoded JSON body of a
response, reduced to the fields the facades inspect. -/
structure ResponseBody where
  needsSubscription : Bool
  errorCode : Option String
  scan : ScanRecord
  scanStatus : ScanStatus
deriving DecidableEq, Repr

/-- Modelled from the spec (§4.2): an HTTP response as seen by the
transport wrapper: status code, optional `Retry-After` header, body. -/
structure HttpResponse where
  status : Nat
  retryAfterHeader : Option String
  body : ResponseBody
deriving DecidableEq, Repr

/-- Value of a decimal digit character, `none` on non-digits. -/
def digitVal (c : Char) : Option Nat :=
  if '0' ≤ c ∧ c ≤ '9' then some (c.toNat - 48) else none

/-- Accumulate a decimal number over a character list, failing on the
first non-digit. -/
def digitsToNat : List Char → Nat → Option Nat
  | [], acc => some acc
  | c :: cs, acc =>
    match digitVal c with
    | none => none
    | some d => digitsToNat cs (acc * 10 + d)

/-- Parse a non-negative decimal string (Python's `int(...)` restricted to
the digit strings the `Retry-After` header carries). -/
def strToNat (s : String) : Option Nat :=
  if s.data.isEmpty then none else digitsToNat s.data 0

/-- Parse the `Retry-After` header: absent header or unparsable value
gives `none` (spec §4.2: "absent header → null"). -/
def parseRetryAfter (h : Option String) : Option Nat :=
  h.bind strToNat

/-- Modelled from the spec (§4.2 Transport Wrapper): map response status to
outcome.  2xx → passthrough body; 401/403 → `AuthenticationError`;
429 → `RateLimitError` with parsed `retry_after`; any other non-2xx →
`APIError` with status code and service-supplied error code. -/
def handle_response (r : HttpResponse) : Except PyException ResponseBody :=
  if 200 ≤ r.status ∧ r.status < 300 then
    .ok r.body
  else if r.status = 401 ∨ r.status = 403 then
    .error (.sdk .authenticationError)
  else if r.status = 429 then
    .error (.sdk (.rateLimitError (parseRetryAfter r.retryAfterHeader)))
  else
    .error (.sdk (.apiError r.status r.body.errorCode))

/-- Modelled from the spec (§4.3): `scans.create`.  The create response goes
through the transport wrapper; on a 2xx body the facade additionally
inspects the `needs_subscription` flag and raises `QuotaExceededError`
when it is set, otherwise returns the scan record. -/
def scans_create (r : HttpResponse) : Except PyException ScanRecord :=
  match handle_response r with
  | .error e => .error e
  | .ok body =>
    if body.needsSubscription then .error (.sdk .quotaExceededError)
    else .ok body.scan

/-- Modelled from the spec (§4.3, §8 scenario "status poll returns 404 →
ScanNotFoundError"): `scans.get`, reinterpreting a 404 `APIError` from the
transport as `ScanNotFoundError`. -/
def scans_get (r : HttpResponse) : Except PyException ScanRecord :=
  match handle_response r with
  | .error (.sdk (.apiError 404 _)) => .error (.sdk .scanNotFoundError)
  | .error e => .error e
  | .ok body => .ok body.scan

/-- Modelled from the spec (§4.3): `scans.get_status`, the status poll, with
the same 404 reinterpretation as `scans_get`. -/
def scans_get_status (r : HttpResponse) : Except PyException ScanStatus :=
  match handle_response r with
  | .error (.sdk (.apiError 404 _)) => .error (.sdk .scanNotFoundError)
  | .error e => .error e
  | .ok body => .ok body.scanStatus

/-- Modelled from the spec and `test_download_report_overwrite_protection`:
`reports.download(scan_id, type, output_path, overwrite)`.  When the output
file already exists and `overwrite` is false the facade raises Python's
built-in `FileExistsError` before any HTTP call; otherwise the download goes
through the transport wrapper, with 404 reinterpreted as
`ScanNotFoundError`, and returns the output path. -/
def reports_download (fileExists overwrite : Bool) (outputPath : String)
    (r : HttpResponse) : Except PyException String :=
  if fileExists ∧ ¬overwrite then .error .fileExistsError
  else
    match handle_response r with
    | .error (.sdk (.apiError 404 _)) => .error (.sdk .scanNotFoundError)
    | .error e => .error e
    | .ok _ => .ok outputPath

/-- Modelled from the spec (§4.4): the environment the lifecycle driver runs
against.  `polls k` is the outcome of the `k`-th status poll (polls raise only
taxonomy errors, as guaranteed by the facades); `onProgress` is the optional
caller callback, `some e` meaning the callback raised `e`; `record` is the
full scan record the Scan facade's get operation returns after a terminal
status. -/
structure ScanBackend where
  polls : Nat → Except GarakError ScanStatus
  onProgress : Option (ScanStatus → Option GarakError)
  record : ScanRecord

/-- Outcome of `wait_for_completion`.  `finished` additionally records how
many sleeps were performed and how many times the timeout check was
evaluated, so that the "no sleep, no timeout check on an immediately
terminal scan" policy is expressible.  `outOfFuel` is an artefact of the
fuelled recursion; it is proved unreachable for positive `poll_interval`. -/
inductive WaitOutcome where
  | finished (record : ScanRecord) (sleeps : Nat) (timeoutChecks : Nat)
  | raised (e : PyException)
  | outOfFuel
deriving DecidableEq, Repr

/-- Result of invoking the optional progress callback on a status. -/
def progressResult (b : ScanBackend) (st : ScanStatus) : Option GarakError :=
  match b.onProgress with
  | none => none
  | some f => f st

/-- Modelled from the spec (§4.4, algorithm steps 1–3): one wait-loop
iteration.  `sleeps` counts sleeps performed so far (the poll index), so the
wall clock reads `sleeps * p` seconds; `checks` counts evaluated timeout
checks.  A terminal status exits with the full record; otherwise the
callback runs (its failure propagates), then the check "elapsed + next
sleep would exceed timeout" fires `ScanTimeoutError` naming the elapsed
seconds, else the loop sleeps `p` and continues.  `fuel` bounds the
recursion. -/
def waitLoop (b : ScanBackend) (timeout p : ℚ) :
    Nat → Nat → Nat → WaitOutcome
  | _, _, 0 => .outOfFuel
  | sleeps, checks, fuel + 1 =>
    match b.polls sleeps with
    | .error e => .raised (.sdk e)
    | .ok st =>
      if st.isTerminal then .finished b.record sleeps checks
      else
        match progressResult b st with
        | some e => .raised (.sdk e)
        | none =>
          let elapsed : ℚ := (sleeps : ℚ) * p
          if timeout < elapsed + p then
            .raised (.sdk (.scanTimeoutError elapsed))
          else
            waitLoop b timeout p (sleeps + 1) (checks + 1) fuel

/-- Fuel sufficient for the wait loop: with positive `p` the timeout check
fires after at most `⌈timeout / p⌉` sleeps. -/
def timeoutFuel (timeout p : ℚ) : Nat :=
  (⌈timeout / p⌉).toNat + 1

/-- Modelled from the spec (§4.4):
`wait_for_completion(scan_id, timeout, poll_interval, on_progress?)`. -/
def wait_for_completion (b : ScanBackend) (timeout p : ℚ) : WaitOutcome :=
  waitLoop b timeout p 0 0 (timeoutFuel timeout p)

/-- Modelled from the spec (§6) and conftest: the environment variables the
credential holder consults, `GARAK_API_KEY` and `GARAK_SDK_API_KEY`. -/
structure EnvState where
  garakApiKey : Option String
  garakSdkApiKey : Option String

/-- Minimum accepted API-key length.  Modelled from the spec ("length ≥ some
minimum") with the value pinned by the tests: `garak_short` (11 chars) is
rejected while every accepted key has ≥ 40 chars. -/
def API_KEY_MIN_LENGTH : Nat := 20

/-- Recognized API-key leading marker, pinned by the tests (`garak_` keys
accepted, `sk_` keys rejected). -/
def API_KEY_MARKER : String := "garak_"

/-- Modelled from the spec (§4.1) and `garak_sdk.utils.validate_api_key`
tests: a key is valid iff it is present, non-empty, long enough and starts
with the recognized marker (non-emptiness is subsumed by the length bound). -/
def validate_api_key : Option String → Bool
  | none => false
  | some k => decide (API_KEY_MIN_LENGTH ≤ k.length) && k.startsWith API_KEY_MARKER

/-- Modelled from the spec (§4.1, §6) and `test_explicit_key_overrides_env`
/ `test_env_var_priority`: an explicitly supplied key (even an empty one)
wins over the environment; otherwise `GARAK_API_KEY` wins over
`GARAK_SDK_API_KEY`. -/
def resolve_api_key (explicit : Option String) (env : EnvState) : Option String :=
  match explicit with
  | some k => some k
  | none =>
    match env.garakApiKey with
    | some k => some k
    | none => env.garakSdkApiKey

/-- The credential holder: stores the validated key. -/
structure GarakAuthManager where
  api_key : String
deriving DecidableEq, Repr

/-- Modelled from the spec (§4.1) and `test_init_without_api_key` /
`test_invalid_api_key_*`: construction resolves a key from the explicit
parameter or the environment, raising `AuthenticationError` when none is
available and `InvalidConfigurationError` when the resolved key is
malformed. -/
def GarakAuthManager.create (explicit : Option String) (env : EnvState) :
    Except PyException GarakAuthManager :=
  match resolve_api_key explicit env with
  | none => .error (.sdk .authenticationError)
  | some k =>
    if validate_api_key (some k) then .ok ⟨k⟩
    else .error (.sdk .invalidConfigurationError)

/-- A header mapping, as an association list of header name/value pairs. -/
abbrev HeaderMap := List (String × String)

/-- The canonical auth header set `{Authorization: Bearer <key>,
X-API-Key: <key>}` built from a key (spec §4.1). -/
def mkAuthHeaders (key : String) : HeaderMap :=
  [("Authorization", "Bearer " ++ key), ("X-API-Key", key)]

/-- Python dict assignment `h[k] = v` on a header mapping: replace the
value under `k` if present, append otherwise. -/
def headerAssign (h : HeaderMap) (k v : String) : HeaderMap :=
  if (List.any h fun e => e.1 = k) then
    List.map (fun e => if e.1 = k then (k, v) else e) h
  else h ++ [(k, v)]

/-- A heap of header mappings, making aliasing between the dicts returned by
successive `get_auth_headers` calls observable: callers hold indices into
the heap. -/
structure AuthSession where
  manager : GarakAuthManager
  heap : List HeaderMap

/-- Modelled from the spec (§4.1): `get_auth_headers` allocates a fresh
header mapping on every call (an independent copy) and returns a reference
to it. -/
def get_auth_headers (s : AuthSession) : Nat × AuthSession :=
  (s.heap.length, ⟨s.manager, s.heap ++ [mkAuthHeaders s.manager.api_key]⟩)

/-- Caller-side mutation of a previously returned header mapping: in-place
dict assignment through reference `r`. -/
def mutateHeaders (s : AuthSession) (r : Nat) (k v : String) : AuthSession :=
  ⟨s.manager, s.heap.set r (headerAssign (s.heap.getD r []) k v)⟩

/-- Modelled from `test_resources_cached` and the lazy resource properties
of `GarakClient` (absent from src/): the client's facade caches.  Facade
objects are identified by allocation ids drawn from `nextId`. -/
structure GarakClient where
  scansCache : Option Nat
  metadataCache : Option Nat
  reportsCache : Option Nat
  nextId : Nat
deriving DecidableEq, Repr

/-- A fresh client: no facade constructed yet. -/
def GarakClient.new : GarakClient := ⟨none, none, none, 0⟩

/-- The `client.scans` property: return the cached facade if present,
otherwise construct one, cache it and return it. -/
def GarakClient.scans (c : GarakClient) : Nat × GarakClient :=
  match c.scansCache with
  | some r => (r, c)
  | none => (c.nextId, { c with scansCache := some c.nextId, nextId := c.nextId + 1 })

/-- The `client.metadata` property, cached like `GarakClient.scans`. -/
def GarakClient.metadata (c : GarakClient) : Nat × GarakClient :=
  match c.metadataCache with
  | some r => (r, c)
  | none => (c.nextId, { c with metadataCache := some c.nextId, nextId := c.nextId + 1 })

/-- The `client.reports` property, cached like `GarakClient.scans`. -/
def GarakClient.reports (c : GarakClient) : Nat × GarakClient :=
  match c.reportsCache with
  | some r => (r, c)
  | none => (c.nextId, { c with reportsCache := some c.nextId, nextId := c.nextId + 1 })

/-! ## Theorems -/

/-- Every error the transport wrapper raises is a member of the SDK
taxonomy. -/
lemma handle_response_error_sdk (r : HttpResponse) (e : PyException)
    (h : handle_response r = .error e) : e.isGarakSDKError = true := by
  unfold handle_response at h
  split at h
  · exact absurd h (by simp)
  · split at h
    · injection h with h; subst h; rfl
    · split at h
      · injection h with h; subst h; rfl
      · injection h with h; subst h; rfl

/-- C5: for every HTTP response with status 429, the client raises
`RateLimitError` whose `retry_after` equals the value parsed from the
response's `Retry-After` header, or null when that header is absent. -/
theorem rate_limit_429 (r : HttpResponse) (h : r.status = 429) :
    handle_response r
      = .error (.sdk (.rateLimitError (parseRetryAfter r.retryAfterHeader)))
    ∧ (r.retryAfterHeader = none →
        handle_response r = .error (.sdk (.rateLimitError none))) := by
  have key : handle_response r
      = .error (.sdk (.rateLimitError (parseRetryAfter r.retryAfterHeader))) := by
    unfold handle_response
    rw [h]
    norm_num
  exact ⟨key, fun habs => by rw [key, habs]; rfl⟩

/-- Witness for C5 at the `test_429_rate_limit` input: status 429 with
`Retry-After: 60`. -/
theorem rate_limit_429_witness :
    handle_response ⟨429, some "60", ⟨false, none, ⟨"s1", .pending⟩, .pending⟩⟩
      = .error (.sdk (.rateLimitError (some 60))) := by
  have h := (rate_limit_429
    ⟨429, some "60", ⟨false, none, ⟨"s1", .pending⟩, .pending⟩⟩ rfl).1
  have hp : parseRetryAfter (some "60") = some 60 := by decide
  rw [hp] at h
  exact h

/-- C4: every scan lookup (get or status poll) answered with a 404 raises
`ScanNotFoundError` — never the generic `APIError` — even though the
transport wrapper itself maps this response to `APIError`. -/
theorem scan_404_not_found (r : HttpResponse) (h : r.status = 404) :
    scans_get r = .error (.sdk .scanNotFoundError)
    ∧ scans_get_status r = .error (.sdk .scanNotFoundError)
    ∧ (∀ s c, scans_get r ≠ .error (.sdk (.apiError s c)))
    ∧ handle_response r = .error (.sdk (.apiError 404 r.body.errorCode)) := by
  have hh : handle_response r = .error (.sdk (.apiError 404 r.body.errorCode)) := by
    unfold handle_response
    rw [h]
    norm_num
  refine ⟨?_, ?_, ?_, hh⟩
  · unfold scans_get; rw [hh]
  · unfold scans_get_status; rw [hh]
  · intro s c
    unfold scans_get; rw [hh]
    simp

/-- Witness for C4 at the `test_get_scan_not_found` input: a 404 response
with error code `scan_not_found`. -/
theorem scan_404_not_found_witness :
    scans_get ⟨404, none, ⟨false, some "scan_not_found", ⟨"s1", .pending⟩, .pending⟩⟩
      = .error (.sdk .scanNotFoundError)
    ∧ handle_response ⟨404, none, ⟨false, some "scan_not_found", ⟨"s1", .pending⟩, .pending⟩⟩
      = .error (.sdk (.apiError 404 (some "scan_not_found"))) := by
  have h := scan_404_not_found
    ⟨404, none, ⟨false, some "scan_not_found", ⟨"s1", .pending⟩, .pending⟩⟩ rfl
  exact ⟨h.1, h.2.2.2⟩

/-- C3: a create-scan response with a 2xx status whose body carries
`needs_subscription: true` raises `QuotaExceededError` and never returns a
scan. -/
theorem create_quota_exceeded (r : HttpResponse)
    (h2 : 200 ≤ r.status) (h3 : r.status < 300)
    (hq : r.body.needsSubscription = true) :
    scans_create r = .error (.sdk .quotaExceededError) := by
  unfold scans_create handle_response
  rw [if_pos ⟨h2, h3⟩]
  simp [hq]

/-- Witness for C3 at the `test_create_scan_quota_exceeded` input: a 201
response with `needs_subscription: true`. -/
theorem create_quota_exceeded_witness :
    scans_create ⟨201, none, ⟨true, none, ⟨"test-scan-123", .pending⟩, .pending⟩⟩
      = .error (.sdk .quotaExceededError) :=
  create_quota_exceeded
    ⟨201, none, ⟨true, none, ⟨"test-scan-123", .pending⟩, .pending⟩⟩
    (by norm_num) (by norm_num) rfl

/-- When no poll ever reports a terminal status and no callback is
installed, the wait loop raises `ScanTimeoutError` before exhausting enough
fuel, and the elapsed seconds it names never exceed `timeout`. -/
lemma waitLoop_never_terminal (b : ScanBackend) (timeout p : ℚ)
    (hcb : b.onProgress = none)
    (hnt : ∀ k, ∃ s, b.polls k = Except.ok s ∧ s.isTerminal = false) :
    ∀ (fuel sleeps checks : ℕ), (sleeps : ℚ) * p ≤ timeout →
      timeout < ((sleeps : ℚ) + (fuel : ℚ)) * p →
      ∃ e, waitLoop b timeout p sleeps checks fuel
          = .raised (.sdk (.scanTimeoutError e)) ∧ e ≤ timeout := by
  intro fuel
  induction fuel with
  | zero =>
    intro sleeps checks h1 h2
    exfalso
    push_cast at h2
    linarith
  | succ fuel ih =>
    intro sleeps checks h1 h2
    obtain ⟨s, hpoll, hterm⟩ := hnt sleeps
    rw [waitLoop, hpoll]
    simp only [hterm, Bool.false_eq_true, if_false, progressResult, hcb]
    by_cases hto : timeout < (sleeps : ℚ) * p + p
    · rw [if_pos hto]
      exact ⟨(sleeps : ℚ) * p, rfl, h1⟩
    · rw [if_neg hto]
      push_neg at hto
      have h1' : ((sleeps + 1 : ℕ) : ℚ) * p ≤ timeout := by
        push_cast
        linarith
      have h2' : timeout < (((sleeps + 1 : ℕ) : ℚ) + (fuel : ℚ)) * p := by
        push_cast at h2 ⊢
        have heq : ((sleeps : ℚ) + 1 + fuel) * p = ((sleeps : ℚ) + (fuel + 1)) * p := by
          ring
        rw [heq]
        exact h2
      exact ih (sleeps + 1) (checks + 1) h1' h2'

/-- C1: for every polling sequence that never reports a terminal status,
`wait_for_completion` raises `ScanTimeoutError`, and the elapsed wall-clock
seconds it names do not exceed `timeout` by more than one `poll_interval`
(in fact they never exceed `timeout`: the check fires when elapsed plus the
next sleep would exceed it). -/
theorem wait_for_completion_times_out (b : ScanBackend) (timeout p : ℚ)
    (hp : 0 < p) (ht : 0 ≤ timeout) (hcb : b.onProgress = none)
    (hnt : ∀ k, ∃ s, b.polls k = Except.ok s ∧ s.isTerminal = false) :
    ∃ e, wait_for_completion b timeout p
        = .raised (.sdk (.scanTimeoutError e)) ∧ e ≤ timeout + p := by
  have hfuel : timeout < ((0 : ℚ) + ((timeoutFuel timeout p : ℕ) : ℚ)) * p := by
    have hq : timeout / p ≤ ((⌈timeout / p⌉.toNat : ℚ)) := by
      refine le_trans (Int.le_ceil (timeout / p)) ?_
      exact_mod_cast Int.self_le_toNat _
    have hlt : timeout / p < ((⌈timeout / p⌉.toNat : ℚ)) + 1 :=
      lt_of_le_of_lt hq (lt_add_one _)
    have := (div_lt_iff₀ hp).mp hlt
    unfold timeoutFuel
    push_cast
    linarith
  obtain ⟨e, he, hle⟩ := waitLoop_never_terminal b timeout p hcb hnt
    (timeoutFuel timeout p) 0 0 (by simpa using ht) hfuel
  exact ⟨e, he, by linarith⟩

/-- Witness for C1: a backend that always reports `running`, timeout 2,
poll interval 1. -/
theorem wait_for_completion_times_out_witness :
    (0 : ℚ) < 1 ∧ (0 : ℚ) ≤ 2 ∧
    ∃ e, wait_for_completion ⟨fun _ => .ok .running, none, ⟨"s1", .running⟩⟩ 2 1
        = .raised (.sdk (.scanTimeoutError e)) ∧ e ≤ 2 + 1 :=
  ⟨by norm_num, by norm_num,
    wait_for_completion_times_out ⟨fun _ => .ok .running, none, ⟨"s1", .running⟩⟩ 2 1
      (by norm_num) (by norm_num) rfl (fun _ => ⟨.running, rfl, rfl⟩)⟩

/-- C2: a scan observed as terminal on the very first poll makes
`wait_for_completion` return the full scan record with zero sleeps
performed and zero timeout checks evaluated. -/
theorem wait_for_completion_immediate (b : ScanBackend) (timeout p : ℚ)
    (s : ScanStatus) (hpoll : b.polls 0 = .ok s) (hterm : s.isTerminal = true) :
    wait_for_completion b timeout p = .finished b.record 0 0 := by
  unfold wait_for_completion timeoutFuel
  rw [waitLoop, hpoll]
  simp [hterm]

/-- Witness for C2: a backend already `completed` on the first poll. -/
theorem wait_for_completion_immediate_witness :
    wait_for_completion ⟨fun _ => .ok .completed, none, ⟨"s1", .completed⟩⟩ 10 1
      = .finished ⟨"s1", .completed⟩ 0 0 :=
  wait_for_completion_immediate ⟨fun _ => .ok .completed, none, ⟨"s1", .completed⟩⟩
    10 1 .completed rfl rfl

/-- Every exception the wait loop raises is a member of the SDK taxonomy
(polls and callbacks are typed to raise taxonomy errors, and the loop's own
failure is `ScanTimeoutError`). -/
lemma waitLoop_raised_sdk (b : ScanBackend) (timeout p : ℚ) :
    ∀ (fuel sleeps checks : ℕ) (e : PyException),
      waitLoop b timeout p sleeps checks fuel = .raised e →
      e.isGarakSDKError = true := by
  intro fuel
  induction fuel with
  | zero =>
    intro sleeps checks e h
    rw [waitLoop] at h
    exact absurd h (by simp)
  | succ fuel ih =>
    intro sleeps checks e h
    rw [waitLoop] at h
    split at h
    · injection h with h; subst h; rfl
    · split at h
      · exact absurd h (by simp)
      · split at h
        · injection h with h; subst h; rfl
        · dsimp only at h
          split at h
          · injection h with h; subst h; rfl
          · exact ih (sleeps + 1) (checks + 1) e h

/-- Counterexample to C6 at the `test_download_report_overwrite_protection`
input: with the output file already present and `overwrite=False`, the
report facade raises Python's built-in `FileExistsError`, which is not an
instance of the `GarakSDKError` taxonomy. -/
theorem report_download_untyped_escape :
    reports_download true false "report.json"
        ⟨200, none, ⟨false, none, ⟨"s1", .completed⟩, .completed⟩⟩
      = .error .fileExistsError
    ∧ PyException.fileExistsError.isGarakSDKError = false := by
  constructor
  · rfl
  · rfl

/-- C6 (amended): every failure raised by the scan facades, the report
facade or the lifecycle driver is a member of the closed `GarakSDKError`
taxonomy, except that report download with an existing output file and
`overwrite=False` raises the built-in `FileExistsError`. -/
theorem sdk_failures_typed :
    (∀ r e, scans_create r = .error e → e.isGarakSDKError = true)
    ∧ (∀ r e, scans_get r = .error e → e.isGarakSDKError = true)
    ∧ (∀ r e, scans_get_status r = .error e → e.isGarakSDKError = true)
    ∧ (∀ b timeout p e, wait_for_completion b timeout p = .raised e →
        e.isGarakSDKError = true)
    ∧ (∀ fe ow path r e, reports_download fe ow path r = .error e →
        e.isGarakSDKError = true ∨ (e = .fileExistsError ∧ fe = true ∧ ow = false)) := by
  refine ⟨?_, ?_, ?_, ?_, ?_⟩
  · intro r e h
    unfold scans_create at h
    split at h
    · injection h with h; subst h
      exact handle_response_error_sdk r _ (by assumption)
    · split at h
      · injection h with h; subst h; rfl
      · exact absurd h (by simp)
  · intro r e h
    unfold scans_get at h
    split at h
    · injection h with h; subst h; rfl
    · injection h with h; subst h
      exact handle_response_error_sdk r _ (by assumption)
    · exact absurd h (by simp)
  · intro r e h
    unfold scans_get_status at h
    split at h
    · injection h with h; subst h; rfl
    · injection h with h; subst h
      exact handle_response_error_sdk r _ (by assumption)
    · exact absurd h (by simp)
  · intro b timeout p e h
    exact waitLoop_raised_sdk b timeout p _ 0 0 e h
  · intro fe ow path r e h
    unfold reports_download at h
    split at h
    · injection h with h; subst h
      right
      rename_i hcond
      exact ⟨rfl, hcond.1, by simpa using hcond.2⟩
    · split at h
      · injection h with h; subst h; left; rfl
      · injection h with h; subst h
        left
        exact handle_response_error_sdk r _ (by assumption)
      · exact absurd h (by simp)

/-- Witness for the amended C6: the overwrite-protection failure falls in
the allowed `FileExistsError` branch. -/
theorem sdk_failures_typed_witness :
    (PyException.fileExistsError.isGarakSDKError = true
      ∨ (PyException.fileExistsError = .fileExistsError ∧ true = true ∧ false = false)) :=
  sdk_failures_typed.2.2.2.2 true false "report.json"
    ⟨200, none, ⟨false, none, ⟨"s1", .completed⟩, .completed⟩⟩
    .fileExistsError rfl

/-- A key fails validation exactly when it is empty, too short, or does
not start with the recognized marker. -/
lemma validate_api_key_false_iff (k : String) :
    validate_api_key (some k) = false ↔
      (k = "" ∨ k.length < API_KEY_MIN_LENGTH ∨ k.startsWith API_KEY_MARKER = false) := by
  unfold validate_api_key
  rw [Bool.and_eq_false_iff]
  constructor
  · rintro (h | h)
    · right; left
      have := of_decide_eq_false h
      omega
    · right; right; exact h
  · rintro (rfl | h | h)
    · left; decide
    · left; exact decide_eq_false (by omega)
    · right; exact h

/-- C7: credential construction raises `AuthenticationError` exactly when
no key is available from the explicit parameter or either environment
variable, and `InvalidConfigurationError` exactly when a key is resolved
but malformed (empty, shorter than the minimum length, or lacking the
recognized marker). -/
theorem auth_create_errors (explicit : Option String) (env : EnvState) :
    (GarakAuthManager.create explicit env = .error (.sdk .authenticationError)
      ↔ explicit = none ∧ env.garakApiKey = none ∧ env.garakSdkApiKey = none)
    ∧ (GarakAuthManager.create explicit env = .error (.sdk .invalidConfigurationError)
      ↔ ∃ k, resolve_api_key explicit env = some k
          ∧ (k = "" ∨ k.length < API_KEY_MIN_LENGTH
              ∨ k.startsWith API_KEY_MARKER = false)) := by
  have hres_iff : resolve_api_key explicit env = none ↔
      (explicit = none ∧ env.garakApiKey = none ∧ env.garakSdkApiKey = none) := by
    unfold resolve_api_key
    rcases explicit with _ | k
    · rcases henv : env.garakApiKey with _ | g
      · simp [henv]
      · simp [henv]
    · simp
  cases hres : resolve_api_key explicit env with
  | none =>
    have hc : GarakAuthManager.create explicit env
        = .error (.sdk .authenticationError) := by
      unfold GarakAuthManager.create
      rw [hres]
    refine ⟨?_, ?_⟩
    · rw [hc]
      exact iff_of_true rfl (hres_iff.mp hres)
    · rw [hc]
      apply iff_of_false (by simp)
      rintro ⟨k, hk, _⟩
      cases hk
  | some k =>
    by_cases hv : validate_api_key (some k) = true
    · have hc : GarakAuthManager.create explicit env = .ok ⟨k⟩ := by
        unfold GarakAuthManager.create
        rw [hres]
        dsimp only
        rw [if_pos hv]
      refine ⟨?_, ?_⟩
      · rw [hc]
        apply iff_of_false (by simp)
        rintro ⟨hx, hg, hs⟩
        rw [hres_iff.mpr ⟨hx, hg, hs⟩] at hres
        cases hres
      · rw [hc]
        apply iff_of_false (by simp)
        rintro ⟨k2, hk2, hbad⟩
        injection hk2 with hk2
        subst hk2
        rw [(validate_api_key_false_iff k).mpr hbad] at hv
        exact Bool.noConfusion hv
    · have hc : GarakAuthManager.create explicit env
          = .error (.sdk .invalidConfigurationError) := by
        unfold GarakAuthManager.create
        rw [hres]
        dsimp only
        rw [if_neg hv]
      refine ⟨?_, ?_⟩
      · rw [hc]
        apply iff_of_false (by simp)
        rintro ⟨hx, hg, hs⟩
        rw [hres_iff.mpr ⟨hx, hg, hs⟩] at hres
        cases hres
      · rw [hc]
        refine iff_of_true rfl ⟨k, rfl, (validate_api_key_false_iff k).mp ?_⟩
        cases hvk : validate_api_key (some k) with
        | true => exact absurd hvk hv
        | false => rfl

/-- Witness for C7: with nothing in the environment and no explicit key the
manager fails with `AuthenticationError`; with the short key of
`test_invalid_api_key_format_short` it fails with
`InvalidConfigurationError`. -/
theorem auth_create_errors_witness :
    GarakAuthManager.create none ⟨none, none⟩ = .error (.sdk .authenticationError)
    ∧ GarakAuthManager.create (some "garak_short") ⟨none, none⟩
      = .error (.sdk .invalidConfigurationError) :=
  ⟨(auth_create_errors none ⟨none, none⟩).1.mpr ⟨rfl, rfl, rfl⟩,
    (auth_create_errors (some "garak_short") ⟨none, none⟩).2.mpr
      ⟨"garak_short", rfl, Or.inr (Or.inl (by decide))⟩⟩

/-- C8: an explicitly supplied key is always the one resolved, whatever the
environment holds; and with no explicit key, `GARAK_API_KEY` takes priority
over `GARAK_SDK_API_KEY`. -/
theorem explicit_key_precedence (k : String) (env : EnvState) :
    resolve_api_key (some k) env = some k
    ∧ ∀ k2, env.garakApiKey = some k2 → resolve_api_key none env = some k2 := by
  refine ⟨rfl, ?_⟩
  intro k2 h
  unfold resolve_api_key
  rw [h]

/-- Witness for C8 at the `test_env_var_priority` configuration: both
environment variables set, explicit key still wins; without an explicit key
the primary variable wins. -/
theorem explicit_key_precedence_witness :
    resolve_api_key (some "garak_explicit_key_1234567890abcdefghijklmnop")
        ⟨some "garak_primary_key_test1234567890abcdefghij",
          some "garak_secondary_key_test1234567890abcdefg"⟩
      = some "garak_explicit_key_1234567890abcdefghijklmnop"
    ∧ resolve_api_key none
        ⟨some "garak_primary_key_test1234567890abcdefghij",
          some "garak_secondary_key_test1234567890abcdefg"⟩
      = some "garak_primary_key_test1234567890abcdefghij" :=
  ⟨(explicit_key_precedence "garak_explicit_key_1234567890abcdefghijklmnop"
      ⟨some "garak_primary_key_test1234567890abcdefghij",
        some "garak_secondary_key_test1234567890abcdefg"⟩).1,
    (explicit_key_precedence "garak_explicit_key_1234567890abcdefghijklmnop"
      ⟨some "garak_primary_key_test1234567890abcdefghij",
        some "garak_secondary_key_test1234567890abcdefg"⟩).2
      "garak_primary_key_test1234567890abcdefghij" rfl⟩

/-- Appending a mapping to the heap and reading it back at the old length
yields that mapping. -/
lemma getD_append_length (l : List HeaderMap) (x : HeaderMap) :
    (l ++ [x]).getD l.length [] = x := by
  induction l with
  | nil => rfl
  | cons a l ih => exact ih

/-- Each `get_auth_headers` call returns a reference to a mapping holding
the canonical auth headers, whatever the session's heap already contains. -/
lemma get_auth_headers_spec (s : AuthSession) :
    (get_auth_headers s).2.heap.getD (get_auth_headers s).1 []
      = mkAuthHeaders s.manager.api_key :=
  getD_append_length s.heap _

/-- C9: `get_auth_headers` returns the mapping
`{Authorization: Bearer <key>, X-API-Key: <key>}`, and each call returns an
independent copy: after a caller mutates the mapping returned by a first
call, a subsequent call still returns the canonical mapping. -/
theorem auth_headers_independent_copies (m : GarakAuthManager)
    (h0 : List HeaderMap) (k v : String) :
    (get_auth_headers ⟨m, h0⟩).2.heap.getD (get_auth_headers ⟨m, h0⟩).1 []
      = [("Authorization", "Bearer " ++ m.api_key), ("X-API-Key", m.api_key)]
    ∧ (get_auth_headers (mutateHeaders (get_auth_headers ⟨m, h0⟩).2
          (get_auth_headers ⟨m, h0⟩).1 k v)).2.heap.getD
        (get_auth_headers (mutateHeaders (get_auth_headers ⟨m, h0⟩).2
          (get_auth_headers ⟨m, h0⟩).1 k v)).1 []
      = [("Authorization", "Bearer " ++ m.api_key), ("X-API-Key", m.api_key)] :=
  ⟨get_auth_headers_spec ⟨m, h0⟩,
    get_auth_headers_spec (mutateHeaders (get_auth_headers ⟨m, h0⟩).2
      (get_auth_headers ⟨m, h0⟩).1 k v)⟩

/-- C10: the `scans`, `metadata` and `reports` properties are cached: a
second access on the resulting client returns the identical facade id and
leaves the client unchanged (so each facade is created at most once). -/
theorem resources_cached (c : GarakClient) :
    ((c.scans.2).scans.1 = c.scans.1 ∧ (c.scans.2).scans.2 = c.scans.2)
    ∧ ((c.metadata.2).metadata.1 = c.metadata.1
        ∧ (c.metadata.2).metadata.2 = c.metadata.2)
    ∧ ((c.reports.2).reports.1 = c.reports.1
        ∧ (c.reports.2).reports.2 = c.reports.2) := by
  refine ⟨⟨?_, ?_⟩, ⟨?_, ?_⟩, ⟨?_, ?_⟩⟩ <;>
    first
    | (cases hc : c.scansCache <;> simp [GarakClient.scans, hc])
    | (cases hc : c.metadataCache <;> simp [GarakClient.metadata, hc])
    | (cases hc : c.reportsCache <;> simp [GarakClient.reports, hc])

end GarakSDK
